import Mathlib

/-!
# WebChatMessaging.js: session and polling state machine

A shallow embedding of `application/src/main/resources/scripts/WebChatMessaging.js`.

The script keeps two module-level variables (`username`, `isLoggedOut`), reads and
writes a handful of DOM properties, and talks to the outside world through
`fetch`, `alert`, `window.location.reload`, `console.error`, `setInterval` and
`navigator.sendBeacon`.  The page is modelled as a record `Page` holding the two
variables, the DOM properties the script touches, the list of external calls made
so far (in order), and the requests that are in flight.  Every JavaScript function
becomes a function `Page → Page`; every promise chain attached to a `fetch`
becomes a function from the way the request settled (`Outcome`) to `Page → Page`.

Modelling choices: the elements the script looks up by id exist, and
`chatMessages` is a container whose content is parsed as body content (a `div`);
the `value` and `style.display` properties hold the value last assigned to them;
`chatMessages.innerHTML` holds what the getter returns, that is, the
serialisation of what the browser parsed from the markup last assigned (see
`Browser.setInnerHTML`); `window.location.reload()` is recorded as a call, and
what runs on the same page load after it is still modelled.
-/

namespace WebChat

/-! ## JSON values as seen by the script -/

/-- A value produced by `response.json()`.  A number is carried by the text that
the JavaScript call `String(x)` gives for it (so `-0` is `"0"`). -/
inductive Json where
  | null
  | bool (b : Bool)
  | num (text : String)
  | str (s : String)
  | arr (items : List Json)
  | obj (props : List (String × Json))

/-- JavaScript `ToBoolean` on a parsed JSON value: `null`, `false`, `0`, `NaN`
and `""` are falsy, everything else (every array and object too) is truthy. -/
def Json.truthy : Json → Bool
  | .null => false
  | .bool b => b
  | .num text => text != "0" && text != "NaN"
  | .str s => s != ""
  | .arr _ => true
  | .obj _ => true

/-- Own property lookup on a parsed object literal; a key given twice keeps its
last value, as `JSON.parse` does. -/
def lookupProp (key : String) : List (String × Json) → Option Json
  | [] => none
  | (k, v) :: rest =>
    match lookupProp key rest with
    | some later => some later
    | none => if k == key then some v else none

/-- Whether an object literal has an own property of the given name. -/
def hasProp (key : String) : List (String × Json) → Bool
  | [] => false
  | (k, _) :: rest => k == key || hasProp key rest

/-- Result of a property read `data.key` used as a condition. -/
inductive PropRead where
  /-- The value read from is `null`: the read throws a `TypeError`. -/
  | throws
  /-- The read succeeds; the flag is the truthiness of what was read (`undefined`
  is falsy). -/
  | value (truthy : Bool)
  deriving DecidableEq, Repr

/-- Truthiness of `data.key` for a key that no built-in prototype defines
(`loggedIn`, `valid`): only an object can carry it as an own property. -/
def Json.readProp (key : String) : Json → PropRead
  | .null => .throws
  | .obj props =>
    match lookupProp key props with
    | some v => .value v.truthy
    | none => .value false
  | _ => .value false

mutual
/-- JavaScript `ToString` as applied by a template literal `${msg}`; `none` when
the conversion throws (an object whose own `toString` property shadows
`Object.prototype.toString` with a non-callable value). -/
def Json.toStr : Json → Option String
  | .null => some "null"
  | .bool b => some (if b then "true" else "false")
  | .num text => some text
  | .str s => some s
  | .arr items => Json.joinItems items
  | .obj props => if hasProp "toString" props then none else some "[object Object]"
/-- The function `Array.prototype.join` with the default separator: `null`
elements contribute the empty string. -/
def Json.joinItems : List Json → Option String
  | [] => some ""
  | [x] => Json.elemStr x
  | x :: y :: rest =>
    match Json.elemStr x, Json.joinItems (y :: rest) with
    | some a, some b => some (a ++ "," ++ b)
    | _, _ => none
/-- One element inside `join`. -/
def Json.elemStr : Json → Option String
  | .null => some ""
  | .bool b => some (if b then "true" else "false")
  | .num text => some text
  | .str s => some s
  | .arr items => Json.joinItems items
  | .obj props => if hasProp "toString" props then none else some "[object Object]"
end

/-! ## Requests, responses and external calls -/

/-- What `fetch(url, options)` is called with.  `body` is the object literal
handed to `JSON.stringify`, field by field (all fields are strings here);
`none` when no body is given. -/
structure Request where
  method : String
  url : String
  headers : List (String × String)
  body : Option (List (String × String))
  deriving DecidableEq, Repr

/-- The functions handed to `setInterval`. -/
inductive Callback where
  | fetchMessages
  | checkUserStatus
  deriving DecidableEq, Repr

/-- An externally visible call made by the script. -/
inductive Effect where
  | fetch (req : Request)
  | alert (text : String)
  | reload
  | consoleError (label : String)
  | setInterval (callback : Callback) (ms : Nat)
  | sendBeacon (url : String) (body : List (String × String))
  | preventDefault
  deriving DecidableEq, Repr

/-- What `response.json()` yields: a rejection when the body is not JSON, the
parsed value otherwise. -/
inductive Body where
  | unparseable
  | json (data : Json)

/-- How a `fetch` promise settles: rejected (network error) or resolved with a
response of some HTTP status. -/
inductive Outcome where
  | networkError
  | response (status : Nat) (body : Body)

/-- The promise chain waiting on an in-flight request. -/
inductive Pending where
  | sendMessage
  | fetchMessages
  | checkUserStatus
  | login
  deriving DecidableEq, Repr

/-! ## Page state -/

/-- The DOM properties the script reads or writes.  `chatMessagesInnerHTML` is
what the getter `chatMessages.innerHTML` returns. -/
structure Dom where
  loginOverlayDisplay : String
  chatSectionDisplay : String
  usernameValue : String
  passwordValue : String
  messageValue : String
  chatMessagesInnerHTML : String
  chatMessagesScrollTop : Nat
  deriving DecidableEq, Repr

/-- One page load: the two module-level variables, the DOM, the external calls
made so far (oldest first) and the requests in flight (oldest first). -/
structure Page where
  username : String
  isLoggedOut : Bool
  dom : Dom
  effects : List Effect
  pending : List Pending
  deriving DecidableEq, Repr

/-- State right after the script has been evaluated (lines 1-2), for a given
document. -/
def Page.initial (dom : Dom) : Page :=
  { username := "", isLoggedOut := false, dom := dom, effects := [], pending := [] }

/-- Record one external call. -/
def Page.emit (e : Effect) (s : Page) : Page :=
  { s with effects := s.effects ++ [e] }

/-- The call `fetch(...)` followed by `.then(...)`: the request goes out and its
promise chain waits. -/
def Page.fetch (req : Request) (k : Pending) (s : Page) : Page :=
  { s with effects := s.effects ++ [.fetch req], pending := s.pending ++ [k] }

/-- The network requests made so far, in order. -/
def Page.requests (s : Page) : List Request :=
  s.effects.filterMap fun
    | .fetch req => some req
    | _ => none

/-- The alerts shown so far, in order. -/
def Page.alerts (s : Page) : List String :=
  s.effects.filterMap fun
    | .alert text => some text
    | _ => none

/-- Number of `window.location.reload()` calls so far. -/
def Page.reloads (s : Page) : Nat :=
  s.effects.count .reload

/-- The periodic tasks scheduled so far, in order. -/
def Page.intervals (s : Page) : List (Callback × Nat) :=
  s.effects.filterMap fun
    | .setInterval cb ms => some (cb, ms)
    | _ => none

/-- The beacons sent so far, in order. -/
def Page.beacons (s : Page) : List (String × List (String × String)) :=
  s.effects.filterMap fun
    | .sendBeacon url body => some (url, body)
    | _ => none

/-! ## The browser: `innerHTML` and scrolling

Assigning markup to `innerHTML` parses it and replaces the children of the
element; reading `innerHTML` serialises the children again.  The two together are
not the identity: text is escaped on the way out (`&` becomes `&amp;`, `<`
becomes `&lt;`, `>` becomes `&gt;`, U+00A0 becomes `&nbsp;`), and tags inside the
markup change the tree.  The part of this the script meets on well-behaved input
is modelled concretely: markup that is a sequence of entries `<div>text</div>`
whose text holds no `<`, no U+0000, no carriage return, and no `&` other than one
that starts `&amp;`, `&lt;`, `&gt;` or `&nbsp;` or is followed by a character that
cannot start a character reference.  For every other markup the result is taken
from the browser, as a parameter. -/

/-- Where the scan of the markup stands: between two entries, or inside the text
of a `div`. -/
inductive Scan where
  | between
  | inText
  deriving DecidableEq, Repr

def nulChar : Char := Char.ofNat 0

def crChar : Char := Char.ofNat 13

def nbspChar : Char := Char.ofNat 160

/-- Parse and serialise in one pass over markup made of `<div>text</div>`
entries; `none` when the markup is not of that form.  The number says how many
characters of an already recognised token are still to be skipped. -/
def reserializeEntries : Scan → Nat → List Char → Option (List Char)
  | .between, 0, [] => some []
  | .inText, 0, [] => none
  | _, _ + 1, [] => none
  | mode, skip + 1, _ :: rest => reserializeEntries mode skip rest
  | .between, 0, c :: rest =>
    if "<div>".data.isPrefixOf (c :: rest) then
      (reserializeEntries .inText 4 rest).map ("<div>".data ++ ·)
    else none
  | .inText, 0, c :: rest =>
    if "</div>".data.isPrefixOf (c :: rest) then
      (reserializeEntries .between 5 rest).map ("</div>".data ++ ·)
    else if c = '<' then none
    else if c = '&' then
      if "amp;".data.isPrefixOf rest then
        (reserializeEntries .inText 4 rest).map ("&amp;".data ++ ·)
      else if "lt;".data.isPrefixOf rest then
        (reserializeEntries .inText 3 rest).map ("&lt;".data ++ ·)
      else if "gt;".data.isPrefixOf rest then
        (reserializeEntries .inText 3 rest).map ("&gt;".data ++ ·)
      else if "nbsp;".data.isPrefixOf rest then
        (reserializeEntries .inText 5 rest).map ("&nbsp;".data ++ ·)
      else
        match rest with
        | [] => none
        | d :: _ =>
          if d.isAlphanum || d == '#' then none
          else (reserializeEntries .inText 0 rest).map ("&amp;".data ++ ·)
    else if c = nulChar ∨ c = crChar then none
    else if c = '>' then (reserializeEntries .inText 0 rest).map ("&gt;".data ++ ·)
    else if c = nbspChar then (reserializeEntries .inText 0 rest).map ("&nbsp;".data ++ ·)
    else (reserializeEntries .inText 0 rest).map (c :: ·)

/-- What `innerHTML` reads back after the given markup was assigned, for markup
in the modelled form. -/
def simpleReserialize (markup : String) : Option String :=
  (reserializeEntries .between 0 markup.data).map String.mk

/-- The parts of the browser the script relies on and this file does not model
itself.  `reserialize markup` is what `chatMessages.innerHTML` reads back after
`markup` was assigned to it (consulted only for markup outside the modelled
form); `scrollBottom content` is the value `chatMessages.scrollTop` holds after
the assignment `scrollTop = scrollHeight` when `innerHTML` reads `content` (the
browser clamps what is assigned to the largest scroll offset). -/
structure Browser where
  reserialize : String → String
  scrollBottom : String → Nat

/-- The assignment `chatMessages.innerHTML = markup`: the value the getter
returns afterwards. -/
def Browser.setInnerHTML (browser : Browser) (markup : String) : String :=
  match simpleReserialize markup with
  | some content => content
  | none => browser.reserialize markup

/-- A character that is the same in markup and in text. -/
def plainChar (c : Char) : Bool :=
  !(c == '<' || c == '&' || c == '>' || c == nulChar || c == crChar || c == nbspChar)

/-- A message without `&`, `<`, `>`, U+00A0, U+0000 and carriage return. -/
def plainText (m : String) : Bool := m.data.all plainChar

/-! ## The script -/

def jsonHeaders : List (String × String) := [("Content-Type", "application/json")]

/-- Request of `sendMessage` (lines 11-15). -/
def sendRequest (username message : String) : Request :=
  { method := "POST", url := "/api/webchat/messages", headers := jsonHeaders,
    body := some [("user", username), ("message", message)] }

/-- Request of `fetchMessages` (line 33). -/
def messagesRequest : Request :=
  { method := "GET", url := "/api/webchat/messages", headers := [], body := none }

/-- Request of `checkUserStatus` (lines 63-67). -/
def statusRequest (username : String) : Request :=
  { method := "POST", url := "/api/webchat/status", headers := jsonHeaders,
    body := some [("username", username)] }

/-- Request of `window.login` (lines 115-119). -/
def loginRequest (username password : String) : Request :=
  { method := "POST", url := "/api/webchat/login", headers := jsonHeaders,
    body := some [("username", username), ("password", password)] }

def logoutNotice : String :=
  "You have been logged out by an administrator or your session has expired. The page will refresh."

def invalidLoginNotice : String := "Invalid username or password. Please try again."

def serverErrorNotice : String := "Error connecting to server."

/-- Lines 80-86. -/
def handleLogout (s : Page) : Page :=
  let s := { s with isLoggedOut := true }
  let s := s.emit (.alert logoutNotice)
  s.emit .reload

/-- Lines 88-97. -/
def showLoginScreen (s : Page) : Page :=
  let s := { s with dom := { s.dom with loginOverlayDisplay := "flex" } }
  let s := { s with dom := { s.dom with chatSectionDisplay := "none" } }
  let s := { s with dom := { s.dom with usernameValue := "" } }
  let s := { s with dom := { s.dom with passwordValue := "" } }
  let s := { s with username := "" }
  { s with isLoggedOut := false }

/-- Lines 4-15: the synchronous part of `sendMessage`. -/
def sendMessage (message : String) (s : Page) : Page :=
  if s.isLoggedOut then showLoginScreen s
  else s.fetch (sendRequest s.username message) .sendMessage

/-- Lines 16-24: the promise chain of `sendMessage`. -/
def sendMessageSettled (o : Outcome) (s : Page) : Page :=
  match o with
  | .networkError => s.emit (.consoleError "Error sending message:")
  | .response status _ =>
    if status = 401 ∨ status = 403 then handleLogout s else s

/-- Lines 27-33: the synchronous part of `fetchMessages`. -/
def fetchMessages (s : Page) : Page :=
  if s.isLoggedOut then s
  else s.fetch messagesRequest .fetchMessages

/-- Lines 46-48: the `forEach` loop over the elements still to be visited,
starting from the current `innerHTML`.  Each round reads `innerHTML`, appends the
template literal and assigns the result.  Returns the final `innerHTML` and
whether the loop ran to its end (`false`: a template literal threw on the way). -/
def renderLoop (browser : Browser) : List Json → String → String × Bool
  | [], html => (html, true)
  | msg :: rest, html =>
    match msg.toStr with
    | some text => renderLoop browser rest (browser.setInnerHTML (html ++ ("<div>" ++ text ++ "</div>")))
    | none => (html, false)

/-- Lines 34-54: the promise chain of `fetchMessages`. -/
def fetchMessagesSettled (browser : Browser) (o : Outcome) (s : Page) : Page :=
  match o with
  | .networkError => s.emit (.consoleError "Error fetching messages:")
  | .response status body =>
    if status = 401 ∨ status = 403 then
      -- the first callback returns `undefined`, which the second one skips
      handleLogout s
    else
      match body with
      | .unparseable => s.emit (.consoleError "Error fetching messages:")
      | .json data =>
        if data.truthy then
          let s := { s with dom := { s.dom with
            chatMessagesInnerHTML := browser.setInnerHTML "" } }
          match data with
          | .arr items =>
            match renderLoop browser items s.dom.chatMessagesInnerHTML with
            | (html, true) =>
              let s := { s with dom := { s.dom with chatMessagesInnerHTML := html } }
              { s with dom := { s.dom with
                  chatMessagesScrollTop := browser.scrollBottom s.dom.chatMessagesInnerHTML } }
            | (html, false) =>
              let s := { s with dom := { s.dom with chatMessagesInnerHTML := html } }
              s.emit (.consoleError "Error fetching messages:")
          | _ =>
            -- `data.forEach` is not a function
            s.emit (.consoleError "Error fetching messages:")
        else s

/-- Lines 58-67: the synchronous part of `checkUserStatus`. -/
def checkUserStatus (s : Page) : Page :=
  if s.isLoggedOut || s.username == "" then s
  else s.fetch (statusRequest s.username) .checkUserStatus

/-- Lines 68-76: the promise chain of `checkUserStatus`. -/
def checkUserStatusSettled (o : Outcome) (s : Page) : Page :=
  match o with
  | .networkError => s.emit (.consoleError "Error checking user status:")
  | .response _ body =>
    match body with
    | .unparseable => s.emit (.consoleError "Error checking user status:")
    | .json data =>
      match data.readProp "loggedIn" with
      | .throws => s.emit (.consoleError "Error checking user status:")
      | .value loggedIn => if !loggedIn then handleLogout s else s

/-- Lines 100-107: the submit handler of the chat form. -/
def chatFormSubmit (s : Page) : Page :=
  let s := s.emit .preventDefault
  let message := s.dom.messageValue
  if message != "" && !s.isLoggedOut then
    let s := sendMessage message s
    { s with dom := { s.dom with messageValue := "" } }
  else s

/-- Lines 111-119: the synchronous part of `window.login`. -/
def login (s : Page) : Page :=
  let s := { s with username := s.dom.usernameValue }
  let password := s.dom.passwordValue
  s.fetch (loginRequest s.username password) .login

/-- Lines 120-137: the promise chain of `window.login`. -/
def loginSettled (o : Outcome) (s : Page) : Page :=
  match o with
  | .networkError => s.emit (.alert serverErrorNotice)
  | .response _ body =>
    match body with
    | .unparseable => s.emit (.alert serverErrorNotice)
    | .json data =>
      match data.readProp "valid" with
      | .throws => s.emit (.alert serverErrorNotice)
      | .value valid =>
        if valid then
          let s := { s with isLoggedOut := false }
          let s := { s with dom := { s.dom with loginOverlayDisplay := "none" } }
          let s := { s with dom := { s.dom with chatSectionDisplay := "block" } }
          let s := s.emit (.setInterval .fetchMessages 1000)
          let s := s.emit (.setInterval .checkUserStatus 3000)
          fetchMessages s
        else s.emit (.alert invalidLoginNotice)

/-- Lines 140-147: the `beforeunload` listener. -/
def beforeUnload (s : Page) : Page :=
  if s.username != "" && !s.isLoggedOut then
    s.emit (.sendBeacon "/api/webchat/logout" [("username", s.username)])
  else s

/-! ## The event loop -/

/-- Run the promise chain of one kind of request. -/
def runSettled (browser : Browser) (k : Pending) (o : Outcome) (s : Page) : Page :=
  match k with
  | .sendMessage => sendMessageSettled o s
  | .fetchMessages => fetchMessagesSettled browser o s
  | .checkUserStatus => checkUserStatusSettled o s
  | .login => loginSettled o s

/-- The in-flight request at position `i` settles with outcome `o`: it leaves the
in-flight list and its promise chain runs.  Nothing happens when there is no such
request. -/
def settle (browser : Browser) (i : Nat) (o : Outcome) (s : Page) : Page :=
  match s.pending.get? i with
  | none => s
  | some k => runSettled browser k o { s with pending := s.pending.eraseIdx i }

/-- A call that starts at most one request, taken together with the settling of
the request it started (if it started one). -/
def tick (browser : Browser) (call : Page → Page) (o : Outcome) (s : Page) : Page :=
  let s1 := call s
  if s.pending.length < s1.pending.length then
    settle browser (s1.pending.length - 1) o s1
  else s1

/-- The user fills in the login form and `window.login` runs. -/
def enterAndLogin (username password : String) (s : Page) : Page :=
  login { s with dom := { s.dom with usernameValue := username, passwordValue := password } }

/-- The user types a message and submits the chat form. -/
def typeAndSubmit (message : String) (s : Page) : Page :=
  chatFormSubmit { s with dom := { s.dom with messageValue := message } }

/-- Things that can happen on the page, one event-loop task each. -/
inductive Event where
  | login (username password : String)
  | chatFormSubmit (message : String)
  | sendMessage (message : String)
  | fetchMessages
  | checkUserStatus
  | settle (i : Nat) (o : Outcome)
  | beforeUnload

/-- One event-loop task. -/
def step (browser : Browser) (e : Event) (s : Page) : Page :=
  match e with
  | .login username password => enterAndLogin username password s
  | .chatFormSubmit message => typeAndSubmit message s
  | .sendMessage message => sendMessage message s
  | .fetchMessages => fetchMessages s
  | .checkUserStatus => checkUserStatus s
  | .settle i o => settle browser i o s
  | .beforeUnload => beforeUnload s

/-- Run a sequence of events, first to last. -/
def run (browser : Browser) (events : List Event) (s : Page) : Page :=
  events.foldl (fun s e => step browser e s) s

/-- A document as the page presents it before anybody has logged in. -/
def blankDom : Dom :=
  { loginOverlayDisplay := "flex", chatSectionDisplay := "none", usernameValue := "",
    passwordValue := "", messageValue := "", chatMessagesInnerHTML := "",
    chatMessagesScrollTop := 0 }

/-! ## Ticks, repeated calls and sample pages used by the statements below -/

/-- One step of the sequences C1 speaks of: a poll tick (the timer fires the
callback, and the request it starts, if any, settles with the given outcome) or a
`sendMessage` call together with the settling of its request. -/
inductive Action where
  | fetchMessages (o : Outcome)
  | checkUserStatus (o : Outcome)
  | sendMessage (message : String) (o : Outcome)

/-- Whether the step is one of the two poll ticks. -/
def Action.isPoll : Action → Bool
  | .fetchMessages _ => true
  | .checkUserStatus _ => true
  | .sendMessage _ _ => false

/-- Run one step. -/
def runAction (br : Browser) (a : Action) (s : Page) : Page :=
  match a with
  | .fetchMessages o => tick br fetchMessages o s
  | .checkUserStatus o => tick br checkUserStatus o s
  | .sendMessage message o => tick br (sendMessage message) o s

/-- Run a sequence of steps, first to last. -/
def runActions (br : Browser) (acts : List Action) (s : Page) : Page :=
  acts.foldl (fun s a => runAction br a s) s

/-- The requests made so far to a given URL. -/
def Page.requestsTo (url : String) (s : Page) : List Request :=
  s.requests.filter fun req => req.url == url

/-- A stand-in browser for the closed statements below.  None of them assigns
markup outside the modelled form, so its `reserialize` is never consulted. -/
def sampleBrowser : Browser :=
  { reserialize := fun markup => markup, scrollBottom := fun content => content.length }

/-- Sample answers of the server. -/
def emptyList : Outcome := .response 200 (.json (.arr []))
def validTrue : Outcome := .response 200 (.json (.obj [("valid", .bool true)]))
def validFalse : Outcome := .response 200 (.json (.obj [("valid", .bool false)]))
def loggedInTrue : Outcome := .response 200 (.json (.obj [("loggedIn", .bool true)]))
def loggedInFalse : Outcome := .response 200 (.json (.obj [("loggedIn", .bool false)]))

/-- Alice has logged in; the first fetch is still in flight. -/
def aliceLoggedIn : Page :=
  run sampleBrowser [.login "alice" "pw", .settle 0 validTrue] (Page.initial blankDom)

/-- Alice has logged in and a status check has then reported `loggedIn: false`,
so `handleLogout` has run. -/
def aliceLoggedOut : Page :=
  run sampleBrowser [.checkUserStatus, .settle 1 loggedInFalse] aliceLoggedIn

/-- The function `handleLogout` invoked `n` times in a row. -/
def handleLogoutTimes : Nat → Page → Page
  | 0, s => s
  | n + 1, s => handleLogoutTimes n (handleLogout s)

/-- The user enters credentials, `window.login` runs, and the login request
settles with the given outcome. -/
def loginTick (br : Browser) (username password : String) (o : Outcome) (s : Page) : Page :=
  tick br (enterAndLogin username password) o s

/-- The transcript the specification asks for: one `<div>msg</div>` entry per
message, concatenated in the order given. -/
def transcriptOf : List String → String
  | [] => ""
  | msg :: rest => "<div>" ++ msg ++ "</div>" ++ transcriptOf rest

/-- The request was rejected (network error) or its body is not JSON. -/
def Outcome.failed : Outcome → Bool
  | .networkError => true
  | .response _ .unparseable => true
  | .response _ (.json _) => false

/-- The response carries status 401 or 403. -/
def Outcome.authLoss : Outcome → Bool
  | .networkError => false
  | .response status _ => status == 401 || status == 403

/-- The page of Alice with one message on display. -/
def aliceReading : Page :=
  { aliceLoggedIn with
    dom := { aliceLoggedIn.dom with
      chatMessagesInnerHTML := "<div>old</div>", chatMessagesScrollTop := 14 } }

/-! ## Auxiliary facts -/

theorem get?_append_last (l : List Pending) (k : Pending) :
    (l ++ [k]).get? ((l ++ [k]).length - 1) = some k := by
  induction l with
  | nil => rfl
  | cons a l _ => simp

theorem eraseIdx_append_last (l : List Pending) (k : Pending) :
    (l ++ [k]).eraseIdx ((l ++ [k]).length - 1) = l := by
  induction l with
  | nil => rfl
  | cons a l ih => simpa using ih

/-- Settling the request a call has just put in flight. -/
theorem settle_fetch_last (br : Browser) (req : Request) (k : Pending) (o : Outcome)
    (s : Page) :
    settle br ((s.fetch req k).pending.length - 1) o (s.fetch req k)
      = runSettled br k o { s with effects := s.effects ++ [.fetch req] } := by
  unfold settle Page.fetch
  simp only [get?_append_last, eraseIdx_append_last]

theorem tick_fetch (br : Browser) (call : Page → Page) (req : Request) (k : Pending)
    (o : Outcome) (s t : Page) (h : call s = t.fetch req k) (hp : t.pending = s.pending) :
    tick br call o s = runSettled br k o { t with effects := t.effects ++ [.fetch req] } := by
  unfold tick
  rw [h]
  have hlen : s.pending.length < (t.fetch req k).pending.length := by
    simp [Page.fetch, hp]
  simp only [hlen, if_true]
  exact settle_fetch_last br req k o t

theorem tick_idle (br : Browser) (call : Page → Page) (o : Outcome) (s : Page)
    (h : call s = s) : tick br call o s = s := by
  unfold tick
  simp [h]

theorem requests_emit_fetch (s : Page) (req : Request) :
    (s.emit (.fetch req)).requests = s.requests ++ [req] := by
  simp [Page.requests, Page.emit, List.filterMap_append]

theorem requests_fetch (s : Page) (req : Request) (k : Pending) :
    (s.fetch req k).requests = s.requests ++ [req] := by
  simp [Page.requests, Page.fetch, List.filterMap_append]

/-! ## Polling and sending after a logout (C1) -/

theorem runAction_poll_loggedOut (br : Browser) (a : Action) (s : Page)
    (h : s.isLoggedOut = true) (ha : a.isPoll = true) : runAction br a s = s := by
  cases a with
  | fetchMessages o => exact tick_idle br _ o s (by simp [fetchMessages, h])
  | checkUserStatus o => exact tick_idle br _ o s (by simp [checkUserStatus, h])
  | sendMessage m o => simp [Action.isPoll] at ha

theorem fetchMessagesSettled_username (br : Browser) (o : Outcome) (s : Page) :
    (fetchMessagesSettled br o s).username = s.username
      ∧ (fetchMessagesSettled br o s).requests = s.requests := by
  unfold fetchMessagesSettled
  cases o with
  | networkError => simp [Page.emit, Page.requests, List.filterMap_append]
  | response status body =>
    by_cases hs : status = 401 ∨ status = 403
    · simp [hs, handleLogout, Page.emit, Page.requests, List.filterMap_append]
    · simp only [hs, if_false]
      cases body with
      | unparseable => simp [Page.emit, Page.requests, List.filterMap_append]
      | json data =>
        by_cases ht : data.truthy = true
        · simp only [ht, if_true]
          cases data with
          | arr items =>
            simp only
            generalize renderLoop br items (br.setInnerHTML "") = r
            rcases r with ⟨html, ok⟩
            cases ok <;> simp [Page.emit, Page.requests, List.filterMap_append]
          | _ => simp [Page.emit, Page.requests, List.filterMap_append]
        · simp [ht]

theorem sendMessageSettled_username (o : Outcome) (s : Page) :
    (sendMessageSettled o s).username = s.username
      ∧ (sendMessageSettled o s).requests = s.requests := by
  unfold sendMessageSettled
  cases o with
  | networkError => simp [Page.emit, Page.requests, List.filterMap_append]
  | response status body =>
    by_cases hs : status = 401 ∨ status = 403
    · simp [hs, handleLogout, Page.emit, Page.requests, List.filterMap_append]
    · simp [hs]

/-- Once the flag is set or the user name is empty, one step keeps it that way
and sends nothing to the status endpoint. -/
theorem runAction_status_silent (br : Browser) (a : Action) (s : Page)
    (h : s.isLoggedOut = true ∨ s.username = "") :
    ((runAction br a s).isLoggedOut = true ∨ (runAction br a s).username = "")
      ∧ (runAction br a s).requestsTo "/api/webchat/status"
          = s.requestsTo "/api/webchat/status" := by
  cases a with
  | checkUserStatus o =>
    have hidle : runAction br (.checkUserStatus o) s = s :=
      tick_idle br _ o s (by rcases h with h | h <;> simp [checkUserStatus, h])
    rw [hidle]
    exact ⟨h, rfl⟩
  | fetchMessages o =>
    cases hl : s.isLoggedOut with
    | true =>
      have hidle : runAction br (.fetchMessages o) s = s :=
        tick_idle br _ o s (by simp [fetchMessages, hl])
      rw [hidle]
      exact ⟨Or.inl hl, rfl⟩
    | false =>
      have hu : s.username = "" := by
        rcases h with h | h
        · rw [hl] at h; exact absurd h (by decide)
        · exact h
      have heq : runAction br (.fetchMessages o) s
          = fetchMessagesSettled br o
              { s with effects := s.effects ++ [.fetch messagesRequest] } := by
        show tick br fetchMessages o s = _
        rw [tick_fetch br fetchMessages messagesRequest .fetchMessages o s s
          (by simp [fetchMessages, hl]) rfl]
        rfl
      obtain ⟨h1, h2⟩ := fetchMessagesSettled_username br o
        { s with effects := s.effects ++ [.fetch messagesRequest] }
      refine ⟨Or.inr (by rw [heq, h1]; exact hu), ?_⟩
      rw [heq]
      unfold Page.requestsTo
      rw [h2]
      simp [Page.requests, List.filterMap_append, messagesRequest]
  | sendMessage m o =>
    cases hl : s.isLoggedOut with
    | true =>
      have hcall : sendMessage m s = showLoginScreen s := by simp [sendMessage, hl]
      have heq : runAction br (.sendMessage m o) s = showLoginScreen s := by
        show tick br (sendMessage m) o s = _
        unfold tick
        simp [hcall, showLoginScreen]
      rw [heq]
      exact ⟨Or.inr rfl, rfl⟩
    | false =>
      have hu : s.username = "" := by
        rcases h with h | h
        · rw [hl] at h; exact absurd h (by decide)
        · exact h
      have heq : runAction br (.sendMessage m o) s
          = sendMessageSettled o
              { s with effects := s.effects ++ [.fetch (sendRequest s.username m)] } := by
        show tick br (sendMessage m) o s = _
        rw [tick_fetch br (sendMessage m) (sendRequest s.username m) .sendMessage o s s
          (by simp [sendMessage, hl]) rfl]
        rfl
      obtain ⟨h1, h2⟩ := sendMessageSettled_username o
        { s with effects := s.effects ++ [.fetch (sendRequest s.username m)] }
      refine ⟨Or.inr (by rw [heq, h1]; exact hu), ?_⟩
      rw [heq]
      unfold Page.requestsTo
      rw [h2]
      simp [Page.requests, List.filterMap_append, sendRequest]

theorem runActions_status_silent (br : Browser) (acts : List Action) (s : Page)
    (h : s.isLoggedOut = true ∨ s.username = "") :
    (runActions br acts s).requestsTo "/api/webchat/status"
      = s.requestsTo "/api/webchat/status" := by
  induction acts generalizing s with
  | nil => rfl
  | cons a acts ih =>
    show (runActions br acts (runAction br a s)).requestsTo _ = _
    rw [ih _ (runAction_status_silent br a s h).1, (runAction_status_silent br a s h).2]

/-- C1 as stated fails: after `handleLogout` has set `isLoggedOut`, a
`sendMessage` call shows the login screen and resets the flag, and the next
`fetchMessages` tick issues `GET /api/webchat/messages` again. -/
theorem c1_counterexample :
    aliceLoggedOut.isLoggedOut = true
      ∧ (runActions sampleBrowser [.sendMessage "hi" emptyList] aliceLoggedOut).requests
          = aliceLoggedOut.requests
      ∧ (runActions sampleBrowser [.sendMessage "hi" emptyList] aliceLoggedOut).isLoggedOut
          = false
      ∧ (runActions sampleBrowser [.sendMessage "hi" emptyList, .fetchMessages emptyList]
            aliceLoggedOut).requests
          = aliceLoggedOut.requests ++ [messagesRequest] := by
  decide

/-- C1, amended: from any state with `isLoggedOut = true`, every finite sequence
of `fetchMessages` and `checkUserStatus` ticks leaves the page exactly as it is
(so no request goes out), and every finite sequence that also contains
`sendMessage` calls still sends nothing to `/api/webchat/status`.  A
`sendMessage` call made while `isLoggedOut` is true issues no request either, but
it shows the login screen and resets `username` to `""` and `isLoggedOut` to
`false`, after which a `fetchMessages` tick or another `sendMessage` call issues
its request. -/
theorem c1_polls_silent_after_logout (br : Browser) (s : Page)
    (h : s.isLoggedOut = true) (acts : List Action) (message : String) :
    ((∀ a ∈ acts, a.isPoll = true) → runActions br acts s = s)
      ∧ (runActions br acts s).requestsTo "/api/webchat/status"
          = s.requestsTo "/api/webchat/status"
      ∧ (sendMessage message s).effects = s.effects
      ∧ (sendMessage message s).requests = s.requests
      ∧ (sendMessage message s).isLoggedOut = false
      ∧ (sendMessage message s).username = ""
      ∧ (sendMessage message s).dom.loginOverlayDisplay = "flex"
      ∧ (sendMessage message s).dom.chatSectionDisplay = "none"
      ∧ (fetchMessages (sendMessage message s)).requests = s.requests ++ [messagesRequest]
      ∧ (sendMessage message (sendMessage message s)).requests
          = s.requests ++ [sendRequest "" message] := by
  refine ⟨?_, runActions_status_silent br acts s (Or.inl h), ?_⟩
  · intro hpoll
    induction acts with
    | nil => rfl
    | cons a acts ih =>
      show runActions br acts (runAction br a s) = s
      rw [runAction_poll_loggedOut br a s h (hpoll a (List.mem_cons_self a acts))]
      exact ih (fun b hb => hpoll b (List.mem_cons_of_mem a hb))
  · simp [sendMessage, fetchMessages, h, showLoginScreen, Page.requests, Page.fetch,
      List.filterMap_append]

theorem c1_polls_silent_after_logout_witness :
    aliceLoggedOut.isLoggedOut = true
      ∧ (∀ a ∈ [Action.fetchMessages emptyList, Action.checkUserStatus loggedInTrue],
          a.isPoll = true)
      ∧ runActions sampleBrowser
          [.fetchMessages emptyList, .checkUserStatus loggedInTrue] aliceLoggedOut
          = aliceLoggedOut :=
  ⟨by decide, by simp [Action.isPoll],
   (c1_polls_silent_after_logout sampleBrowser aliceLoggedOut (by decide)
      [.fetchMessages emptyList, .checkUserStatus loggedInTrue] "hi").1
      (by simp [Action.isPoll])⟩

/-! ## The guards of the three synchronisation tasks (C2) -/

/-- C2 as stated fails: in the initial state (`username = ""`,
`isLoggedOut = false`) a `fetchMessages` tick issues its GET and `sendMessage`
issues its POST (with `user: ""`); the same happens after a chat-form submit and
after a login with an empty user name that the server accepts. -/
theorem c2_counterexample :
    (Page.initial blankDom).username = ""
      ∧ (fetchMessages (Page.initial blankDom)).requests = [messagesRequest]
      ∧ (sendMessage "hi" (Page.initial blankDom)).requests = [sendRequest "" "hi"]
      ∧ (run sampleBrowser [.chatFormSubmit "hi"] (Page.initial blankDom)).requests
          = [sendRequest "" "hi"]
      ∧ (run sampleBrowser [.login "" "", .settle 0 validTrue] (Page.initial blankDom)).username
          = ""
      ∧ (run sampleBrowser [.login "" "", .settle 0 validTrue] (Page.initial blankDom)).requests
          = [loginRequest "" "", messagesRequest] := by
  decide

/-- C2, amended: in every state reachable from the initial state by any sequence
of events, none of the three synchronisation tasks (message send, whether called
directly or through the chat form, message fetch, status check) issues its request
while `isLoggedOut` is true, and the status check issues none while `username`
is empty either.  With `isLoggedOut` false, message fetch and message send issue
their requests whatever `username` holds. -/
theorem c2_no_request_while_logged_out (br : Browser) (dom : Dom) (events : List Event)
    (message text : String) :
    (((run br events (Page.initial dom)).isLoggedOut = true →
        (sendMessage message (run br events (Page.initial dom))).requests
            = (run br events (Page.initial dom)).requests
          ∧ (typeAndSubmit text (run br events (Page.initial dom))).requests
            = (run br events (Page.initial dom)).requests
          ∧ (fetchMessages (run br events (Page.initial dom))).requests
            = (run br events (Page.initial dom)).requests
          ∧ (checkUserStatus (run br events (Page.initial dom))).requests
            = (run br events (Page.initial dom)).requests)
      ∧ ((run br events (Page.initial dom)).username = "" →
          (checkUserStatus (run br events (Page.initial dom))).requests
            = (run br events (Page.initial dom)).requests)
      ∧ ((run br events (Page.initial dom)).isLoggedOut = false →
          (fetchMessages (run br events (Page.initial dom))).requests
            = (run br events (Page.initial dom)).requests ++ [messagesRequest]
          ∧ (sendMessage message (run br events (Page.initial dom))).requests
            = (run br events (Page.initial dom)).requests
              ++ [sendRequest (run br events (Page.initial dom)).username message])) := by
  generalize run br events (Page.initial dom) = s
  refine ⟨fun h => ⟨?_, ?_, ?_, ?_⟩, fun h => ?_, fun h => ⟨?_, ?_⟩⟩
  · simp [sendMessage, h, showLoginScreen, Page.requests]
  · simp [typeAndSubmit, chatFormSubmit, Page.emit, h, Page.requests, List.filterMap_append]
  · simp [fetchMessages, h]
  · simp [checkUserStatus, h]
  · simp [checkUserStatus, h]
  · simp [fetchMessages, h, requests_fetch]
  · simp [sendMessage, h, requests_fetch]

theorem c2_no_request_while_logged_out_witness :
    (run sampleBrowser
        [.login "alice" "pw", .settle 0 validTrue, .checkUserStatus, .settle 1 loggedInFalse]
        (Page.initial blankDom)).isLoggedOut = true
      ∧ (fetchMessages (run sampleBrowser
          [.login "alice" "pw", .settle 0 validTrue, .checkUserStatus, .settle 1 loggedInFalse]
          (Page.initial blankDom))).requests
        = (run sampleBrowser
          [.login "alice" "pw", .settle 0 validTrue, .checkUserStatus, .settle 1 loggedInFalse]
          (Page.initial blankDom)).requests
      ∧ (run sampleBrowser [] (Page.initial blankDom)).username = ""
      ∧ (checkUserStatus (run sampleBrowser [] (Page.initial blankDom))).requests
        = (run sampleBrowser [] (Page.initial blankDom)).requests
      ∧ (run sampleBrowser [] (Page.initial blankDom)).isLoggedOut = false
      ∧ (fetchMessages (run sampleBrowser [] (Page.initial blankDom))).requests
        = (run sampleBrowser [] (Page.initial blankDom)).requests ++ [messagesRequest] :=
  ⟨by decide,
   ((c2_no_request_while_logged_out sampleBrowser blankDom
      [.login "alice" "pw", .settle 0 validTrue, .checkUserStatus, .settle 1 loggedInFalse]
      "hi" "hi").1 (by decide)).2.2.1,
   by decide,
   (c2_no_request_while_logged_out sampleBrowser blankDom [] "hi" "hi").2.1 (by decide),
   by decide,
   ((c2_no_request_while_logged_out sampleBrowser blankDom [] "hi" "hi").2.2 (by decide)).1⟩

/-! ## Repeated logout (C3) -/

theorem handleLogout_alerts (s : Page) :
    (handleLogout s).alerts = s.alerts ++ [logoutNotice] := by
  simp [handleLogout, Page.emit, Page.alerts, List.filterMap_append]

theorem handleLogout_reloads (s : Page) : (handleLogout s).reloads = s.reloads + 1 := by
  simp [handleLogout, Page.emit, Page.reloads, List.count_append]

/-- C3 as stated fails: two invocations of `handleLogout` on the same page load
show two alerts and call `reload` twice.  This is what happens when a message
fetch answered with 401 and a status check answered with `loggedIn: false` were
both in flight. -/
theorem c3_counterexample :
    (run sampleBrowser
        [.checkUserStatus, .settle 0 (.response 401 .unparseable), .settle 0 loggedInFalse]
        aliceLoggedIn).alerts = [logoutNotice, logoutNotice]
      ∧ (run sampleBrowser
        [.checkUserStatus, .settle 0 (.response 401 .unparseable), .settle 0 loggedInFalse]
        aliceLoggedIn).reloads = 2
      ∧ (handleLogoutTimes 2 aliceLoggedIn).alerts = [logoutNotice, logoutNotice]
      ∧ (handleLogoutTimes 2 aliceLoggedIn).reloads = 2
      ∧ (handleLogoutTimes 2 aliceLoggedIn).effects
          = aliceLoggedIn.effects
              ++ [.alert logoutNotice, .reload, .alert logoutNotice, .reload] := by
  decide

/-- C3, amended: only the flag is idempotent.  For every `n ≥ 1`, invoking
`handleLogout` `n` times leaves `isLoggedOut = true` and leaves `username` and
the DOM untouched, but each invocation shows its own alert and calls `reload`
once more: `n` alerts and `n` reloads in all. -/
theorem c3_logout_repeats (n : Nat) (s : Page) (hn : 1 ≤ n) :
    (handleLogoutTimes n s).isLoggedOut = true
      ∧ (handleLogoutTimes n s).username = s.username
      ∧ (handleLogoutTimes n s).dom = s.dom
      ∧ (handleLogoutTimes n s).alerts = s.alerts ++ List.replicate n logoutNotice
      ∧ (handleLogoutTimes n s).reloads = s.reloads + n := by
  have key : ∀ (m : Nat) (t : Page),
      (handleLogoutTimes m t).isLoggedOut = (if m = 0 then t.isLoggedOut else true)
        ∧ (handleLogoutTimes m t).username = t.username
        ∧ (handleLogoutTimes m t).dom = t.dom
        ∧ (handleLogoutTimes m t).alerts = t.alerts ++ List.replicate m logoutNotice
        ∧ (handleLogoutTimes m t).reloads = t.reloads + m := by
    intro m
    induction m with
    | zero => intro t; simp [handleLogoutTimes]
    | succ m ih =>
      intro t
      obtain ⟨h1, h2, h3, h4, h5⟩ := ih (handleLogout t)
      refine ⟨?_, ?_, ?_, ?_, ?_⟩
      · show (handleLogoutTimes m (handleLogout t)).isLoggedOut = _
        rw [h1]
        by_cases hm : m = 0 <;> simp [hm, handleLogout, Page.emit]
      · show (handleLogoutTimes m (handleLogout t)).username = _
        rw [h2]; rfl
      · show (handleLogoutTimes m (handleLogout t)).dom = _
        rw [h3]; rfl
      · show (handleLogoutTimes m (handleLogout t)).alerts = _
        rw [h4, handleLogout_alerts, List.replicate_succ, List.append_assoc]
        rfl
      · show (handleLogoutTimes m (handleLogout t)).reloads = _
        rw [h5, handleLogout_reloads]
        omega
  obtain ⟨h1, h2, h3, h4, h5⟩ := key n s
  refine ⟨?_, h2, h3, h4, h5⟩
  rw [h1]
  have : n ≠ 0 := by omega
  simp [this]

theorem c3_logout_repeats_witness :
    1 ≤ 3 ∧ (handleLogoutTimes 3 aliceLoggedIn).isLoggedOut = true
      ∧ (handleLogoutTimes 3 aliceLoggedIn).reloads = aliceLoggedIn.reloads + 3 :=
  ⟨by decide, (c3_logout_repeats 3 aliceLoggedIn (by decide)).1,
   (c3_logout_repeats 3 aliceLoggedIn (by decide)).2.2.2.2⟩

/-! ## Login (C4, C5) -/

theorem loginTick_eq (br : Browser) (u p : String) (o : Outcome) (s : Page) :
    loginTick br u p o s
      = loginSettled o
          { s with
            username := u
            dom := { s.dom with usernameValue := u, passwordValue := p }
            effects := s.effects ++ [.fetch (loginRequest u p)] } := by
  unfold loginTick
  rw [tick_fetch br (enterAndLogin u p) (loginRequest u p) .login o s
    { s with username := u, dom := { s.dom with usernameValue := u, passwordValue := p } }
    rfl rfl]
  rfl

theorem readProp_valid (b : Bool) :
    (Json.obj [("valid", .bool b)]).readProp "valid" = .value b := by
  cases b <;> decide

theorem readProp_loggedIn (b : Bool) :
    (Json.obj [("loggedIn", .bool b)]).readProp "loggedIn" = .value b := by
  cases b <;> decide

/-- C4: whatever user name and password are entered and whatever the page state
before, when the login endpoint answers `{valid: true}` the login ends with
`username` equal to the entered user name, `isLoggedOut = false`, the overlay
hidden and the chat section shown; after the login request it has scheduled
exactly `fetchMessages` every 1000 ms and `checkUserStatus` every 3000 ms and
has made exactly one `fetchMessages` call, whose GET is now in flight. -/
theorem c4_login_accepted (br : Browser) (s : Page) (u p : String) (status : Nat) :
    (loginTick br u p (.response status (.json (.obj [("valid", .bool true)]))) s).username = u
      ∧ (loginTick br u p (.response status (.json (.obj [("valid", .bool true)]))) s).isLoggedOut
          = false
      ∧ (loginTick br u p (.response status (.json (.obj [("valid", .bool true)])))
            s).dom.loginOverlayDisplay = "none"
      ∧ (loginTick br u p (.response status (.json (.obj [("valid", .bool true)])))
            s).dom.chatSectionDisplay = "block"
      ∧ (loginTick br u p (.response status (.json (.obj [("valid", .bool true)]))) s).effects
          = s.effects ++ [.fetch (loginRequest u p), .setInterval .fetchMessages 1000,
              .setInterval .checkUserStatus 3000, .fetch messagesRequest]
      ∧ (loginTick br u p (.response status (.json (.obj [("valid", .bool true)]))) s).intervals
          = s.intervals ++ [(.fetchMessages, 1000), (.checkUserStatus, 3000)]
      ∧ (loginTick br u p (.response status (.json (.obj [("valid", .bool true)]))) s).pending
          = s.pending ++ [.fetchMessages] := by
  rw [loginTick_eq]
  simp [loginSettled, readProp_valid, fetchMessages, Page.fetch, Page.emit, Page.intervals,
    List.filterMap_append]

/-- What a rejected login leaves behind, for any credentials and any page: the
entered user name sits in `username`, the alert is the only other effect. -/
theorem loginTick_rejected (br : Browser) (s : Page) (u p : String) (status : Nat) :
    loginTick br u p (.response status (.json (.obj [("valid", .bool false)]))) s
      = { s with
          username := u
          dom := { s.dom with usernameValue := u, passwordValue := p }
          effects := s.effects ++ [.fetch (loginRequest u p), .alert invalidLoginNotice] } := by
  rw [loginTick_eq]
  simp [loginSettled, readProp_valid, Page.emit]

/-- C5 fails on the code: `window.login` stores the entered user name in
`username` before the request goes out and never takes it back.  After
`{valid: false}` for `alice` the alert is shown, the chat section stays hidden
and nothing is scheduled, but `username` is `"alice"`, not `""`; leaving the
page then sends a logout beacon for `alice`. -/
theorem c5_rejected_login_keeps_username :
    (loginTick sampleBrowser "alice" "wrong" validFalse (Page.initial blankDom)).username
        = "alice"
      ∧ (loginTick sampleBrowser "alice" "wrong" validFalse (Page.initial blankDom)).isLoggedOut
        = false
      ∧ (loginTick sampleBrowser "alice" "wrong" validFalse (Page.initial blankDom)).alerts
        = [invalidLoginNotice]
      ∧ (loginTick sampleBrowser "alice" "wrong" validFalse (Page.initial blankDom)).intervals
        = []
      ∧ (loginTick sampleBrowser "alice" "wrong" validFalse
          (Page.initial blankDom)).dom.chatSectionDisplay = "none"
      ∧ (beforeUnload (loginTick sampleBrowser "alice" "wrong" validFalse
          (Page.initial blankDom))).beacons = [("/api/webchat/logout", [("username", "alice")])] := by
  decide

/-! ## Authentication loss seen by the message poller (C6) -/

theorem fetchTick_eq (br : Browser) (o : Outcome) (s : Page) (h : s.isLoggedOut = false) :
    tick br fetchMessages o s
      = fetchMessagesSettled br o { s with effects := s.effects ++ [.fetch messagesRequest] } := by
  rw [tick_fetch br fetchMessages messagesRequest .fetchMessages o s s
    (by simp [fetchMessages, h]) rfl]
  rfl

/-- C6: a `fetchMessages` tick issued with `isLoggedOut = false` whose response
has status 401 or 403, whatever its body, runs `handleLogout` exactly once (one
alert, one reload, flag set) and leaves the DOM, so the transcript and its scroll
position, exactly as before the tick. -/
theorem c6_fetch_auth_loss (br : Browser) (s : Page) (status : Nat) (body : Body)
    (h : s.isLoggedOut = false) (hs : status = 401 ∨ status = 403) :
    tick br fetchMessages (.response status body) s
        = handleLogout { s with effects := s.effects ++ [.fetch messagesRequest] }
      ∧ (tick br fetchMessages (.response status body) s).effects
        = s.effects ++ [.fetch messagesRequest, .alert logoutNotice, .reload]
      ∧ (tick br fetchMessages (.response status body) s).alerts = s.alerts ++ [logoutNotice]
      ∧ (tick br fetchMessages (.response status body) s).reloads = s.reloads + 1
      ∧ (tick br fetchMessages (.response status body) s).isLoggedOut = true
      ∧ (tick br fetchMessages (.response status body) s).dom = s.dom := by
  rw [fetchTick_eq br _ s h]
  simp [fetchMessagesSettled, hs, handleLogout, Page.emit, Page.alerts, Page.reloads,
    List.filterMap_append, List.count_append]

theorem c6_fetch_auth_loss_witness :
    aliceLoggedIn.isLoggedOut = false ∧ (403 = 401 ∨ 403 = 403)
      ∧ (tick sampleBrowser fetchMessages (.response 403 .unparseable) aliceLoggedIn).dom
        = aliceLoggedIn.dom
      ∧ (tick sampleBrowser fetchMessages (.response 403 .unparseable) aliceLoggedIn).reloads
        = aliceLoggedIn.reloads + 1 :=
  ⟨by decide, by decide,
   (c6_fetch_auth_loss sampleBrowser aliceLoggedIn 403 .unparseable (by decide)
      (by decide)).2.2.2.2.2,
   (c6_fetch_auth_loss sampleBrowser aliceLoggedIn 403 .unparseable (by decide)
      (by decide)).2.2.2.1⟩

/-! ## Rendering the transcript (C7) -/

theorem reserializeEntries_skip (mode : Scan) (p tail : List Char) :
    reserializeEntries mode p.length (p ++ tail) = reserializeEntries mode 0 tail := by
  induction p with
  | nil => rfl
  | cons c p ih =>
    cases mode <;> simpa [reserializeEntries] using ih

theorem reserializeEntries_open (tail : List Char) :
    reserializeEntries .between 0 ("<div>".data ++ tail)
      = (reserializeEntries .inText 0 tail).map ("<div>".data ++ ·) := by
  have h := reserializeEntries_skip .inText ['d', 'i', 'v', '>'] tail
  simp only [List.length_cons, List.length_nil] at h
  show reserializeEntries .between 0 ('<' :: (['d', 'i', 'v', '>'] ++ tail)) = _
  rw [reserializeEntries]
  rw [h]
  simp [List.isPrefixOf]

theorem reserializeEntries_text (text tail : List Char) (h : text.all plainChar = true) :
    reserializeEntries .inText 0 (text ++ ("</div>".data ++ tail))
      = (reserializeEntries .between 0 tail).map (fun r => text ++ ("</div>".data ++ r)) := by
  induction text with
  | nil =>
    have hs := reserializeEntries_skip .between ['/', 'd', 'i', 'v', '>'] tail
    simp only [List.length_cons, List.length_nil] at hs
    show reserializeEntries .inText 0 ('<' :: (['/', 'd', 'i', 'v', '>'] ++ tail)) = _
    rw [reserializeEntries.eq_def]
    dsimp only
    rw [hs]
    simp [List.isPrefixOf]
  | cons c text ih =>
    simp only [List.all_cons, Bool.and_eq_true] at h
    obtain ⟨hc, ht⟩ := h
    simp only [plainChar, Bool.not_eq_true', Bool.or_eq_false_iff, beq_eq_false_iff_ne,
      ne_eq] at hc
    obtain ⟨⟨⟨⟨⟨h1, h2⟩, h3⟩, h4⟩, h5⟩, h6⟩ := hc
    show reserializeEntries .inText 0 (c :: (text ++ ("</div>".data ++ tail))) = _
    rw [reserializeEntries.eq_def]
    dsimp only
    rw [ih ht]
    have h1r : ¬ ('<' = c) := fun e => h1 e.symm
    simp [List.isPrefixOf, h1, h1r, h2, h3, h4, h5, h6, Option.map_map, Function.comp_def]

theorem reserializeEntries_transcript (msgs : List String)
    (h : ∀ m ∈ msgs, plainText m = true) :
    reserializeEntries .between 0 (transcriptOf msgs).data = some (transcriptOf msgs).data := by
  induction msgs with
  | nil => rfl
  | cons m rest ih =>
    have hm : m.data.all plainChar = true := h m (List.mem_cons_self m rest)
    have hr := ih (fun x hx => h x (List.mem_cons_of_mem m hx))
    simp only [transcriptOf, String.data_append, List.append_assoc]
    rw [reserializeEntries_open, reserializeEntries_text _ _ hm, hr]
    simp

/-- Markup made of plain-text entries reads back unchanged. -/
theorem setInnerHTML_transcript (br : Browser) (msgs : List String)
    (h : ∀ m ∈ msgs, plainText m = true) :
    br.setInnerHTML (transcriptOf msgs) = transcriptOf msgs := by
  simp [Browser.setInnerHTML, simpleReserialize, reserializeEntries_transcript msgs h]

theorem transcriptOf_append (xs ys : List String) :
    transcriptOf (xs ++ ys) = transcriptOf xs ++ transcriptOf ys := by
  induction xs with
  | nil => simp [transcriptOf]
  | cons x xs ih => simp [transcriptOf, ih, String.append_assoc]

theorem renderLoop_plain (br : Browser) (msgs done : List String)
    (hd : ∀ m ∈ done, plainText m = true) (h : ∀ m ∈ msgs, plainText m = true) :
    renderLoop br (msgs.map Json.str) (transcriptOf done)
      = (transcriptOf (done ++ msgs), true) := by
  induction msgs generalizing done with
  | nil => simp [renderLoop]
  | cons m rest ih =>
    have hdm : ∀ x ∈ done ++ [m], plainText x = true := by
      intro x hx
      rcases List.mem_append.1 hx with hx | hx
      · exact hd x hx
      · rw [List.mem_singleton.1 hx]; exact h m (List.mem_cons_self m rest)
    have hstep : br.setInnerHTML (transcriptOf done ++ ("<div>" ++ m ++ "</div>"))
        = transcriptOf (done ++ [m]) := by
      have e : transcriptOf done ++ ("<div>" ++ m ++ "</div>") = transcriptOf (done ++ [m]) := by
        simp [transcriptOf_append, transcriptOf]
      rw [e]
      exact setInnerHTML_transcript br _ hdm
    simp only [List.map_cons, renderLoop, Json.toStr, hstep]
    rw [ih (done ++ [m]) hdm (fun x hx => h x (List.mem_cons_of_mem m hx))]
    simp

theorem setInnerHTML_empty (br : Browser) : br.setInnerHTML "" = "" := rfl

/-- C7 as stated fails: the transcript is what the browser reads back from the
markup, and the message `a & b` reads back as `<div>a &amp; b</div>`, which is
not the entry `<div>a & b</div>`. -/
theorem c7_counterexample :
    (fetchMessagesSettled sampleBrowser (.response 200 (.json (.arr [.str "a & b"])))
        aliceReading).dom.chatMessagesInnerHTML = "<div>a &amp; b</div>"
      ∧ transcriptOf ["a & b"] = "<div>a & b</div>"
      ∧ (fetchMessagesSettled sampleBrowser (.response 200 (.json (.arr [.str "a & b"])))
        aliceReading).dom.chatMessagesInnerHTML ≠ transcriptOf ["a & b"]
      ∧ (fetchMessagesSettled sampleBrowser
          (.response 200 (.json (.arr [.str "a & b", .str "1 > 0"])))
          aliceReading).dom.chatMessagesInnerHTML
        = "<div>a &amp; b</div><div>1 &gt; 0</div>" := by
  decide

/-- C7, amended: for every list of message strings (the empty list included)
answered with a status other than 401 and 403, and whatever the transcript held
before, what the response handler of `fetchMessages` leaves in
`chatMessages.innerHTML` does not depend on the earlier content; and when no
message contains `&`, `<`, `>`, U+00A0, U+0000 or a carriage return, it is
exactly the entries `<div>msg</div>` of the returned messages in the order
received, and the view is scrolled to the bottom of that content. -/
theorem c7_plain_transcript_replaced (br : Browser) (s : Page) (status : Nat)
    (msgs : List String) (h401 : status ≠ 401) (h403 : status ≠ 403) :
    ((∀ m ∈ msgs, plainText m = true) →
        (fetchMessagesSettled br (.response status (.json (.arr (msgs.map Json.str))))
            s).dom.chatMessagesInnerHTML = transcriptOf msgs
          ∧ (fetchMessagesSettled br (.response status (.json (.arr (msgs.map Json.str))))
            s).dom.chatMessagesScrollTop = br.scrollBottom (transcriptOf msgs)
          ∧ (fetchMessagesSettled br (.response status (.json (.arr (msgs.map Json.str))))
            s).effects = s.effects)
      ∧ (∀ t : Page,
          (fetchMessagesSettled br (.response status (.json (.arr (msgs.map Json.str))))
              s).dom.chatMessagesInnerHTML
            = (fetchMessagesSettled br (.response status (.json (.arr (msgs.map Json.str))))
              t).dom.chatMessagesInnerHTML) := by
  refine ⟨fun hp => ?_, fun t => ?_⟩
  · have hr := renderLoop_plain br msgs [] (by simp) hp
    simp only [transcriptOf, List.nil_append] at hr
    simp [fetchMessagesSettled, h401, h403, Json.truthy, setInnerHTML_empty, hr]
  · simp only [fetchMessagesSettled, h401, h403, or_self, if_false, Json.truthy, if_true]
    generalize renderLoop br (msgs.map Json.str) (br.setInnerHTML "") = r
    rcases r with ⟨html, ok⟩
    cases ok <;> simp [Page.emit]

theorem c7_plain_transcript_replaced_witness :
    (200 : Nat) ≠ 401 ∧ (200 : Nat) ≠ 403
      ∧ (∀ m ∈ ["hi", "bye"], plainText m = true)
      ∧ (fetchMessagesSettled sampleBrowser
          (.response 200 (.json (.arr (["hi", "bye"].map Json.str))))
          aliceReading).dom.chatMessagesInnerHTML
        = "<div>hi</div><div>bye</div>" :=
  ⟨by decide, by decide, by decide,
   ((c7_plain_transcript_replaced sampleBrowser aliceReading 200 ["hi", "bye"] (by decide)
      (by decide)).1 (by decide)).1⟩

/-! ## The status poller (C8) -/

theorem statusTick_eq (br : Browser) (o : Outcome) (s : Page)
    (h : s.isLoggedOut = false) (hu : s.username ≠ "") :
    tick br checkUserStatus o s
      = checkUserStatusSettled o
          { s with effects := s.effects ++ [.fetch (statusRequest s.username)] } := by
  rw [tick_fetch br checkUserStatus (statusRequest s.username) .checkUserStatus o s s
    (by simp [checkUserStatus, h, hu]) rfl]
  rfl

/-- C8: a `checkUserStatus` tick leaves the page untouched (no request) when
`isLoggedOut` is true or `username` is empty.  Otherwise it issues exactly one
request, a POST to `/api/webchat/status` with a JSON content type and the body
`{username: <current username>}`; when the answer is `{loggedIn: false}` it then
runs `handleLogout` (once), and when the answer is `{loggedIn: true}` it does
not: no alert, no reload, and `username`, `isLoggedOut` and the DOM are as
before. -/
theorem c8_status_tick (br : Browser) (s : Page) (o : Outcome) (status : Nat) :
    ((s.isLoggedOut = true ∨ s.username = "") →
        tick br checkUserStatus o s = s ∧ (checkUserStatus s).requests = s.requests)
      ∧ (s.isLoggedOut = false → s.username ≠ "" →
          (checkUserStatus s).effects
              = s.effects ++ [.fetch
                  { method := "POST", url := "/api/webchat/status",
                    headers := [("Content-Type", "application/json")],
                    body := some [("username", s.username)] }]
            ∧ (checkUserStatus s).requests
              = s.requests ++
                  [{ method := "POST", url := "/api/webchat/status",
                     headers := [("Content-Type", "application/json")],
                     body := some [("username", s.username)] }]
            ∧ tick br checkUserStatus
                (.response status (.json (.obj [("loggedIn", .bool false)]))) s
              = handleLogout
                  { s with effects := s.effects ++ [.fetch
                      { method := "POST", url := "/api/webchat/status",
                        headers := [("Content-Type", "application/json")],
                        body := some [("username", s.username)] }] }
            ∧ (tick br checkUserStatus
                (.response status (.json (.obj [("loggedIn", .bool false)]))) s).effects
              = s.effects ++ [.fetch
                  { method := "POST", url := "/api/webchat/status",
                    headers := [("Content-Type", "application/json")],
                    body := some [("username", s.username)] },
                  .alert logoutNotice, .reload]
            ∧ (tick br checkUserStatus
                (.response status (.json (.obj [("loggedIn", .bool false)]))) s).alerts
              = s.alerts ++ [logoutNotice]
            ∧ (tick br checkUserStatus
                (.response status (.json (.obj [("loggedIn", .bool false)]))) s).isLoggedOut
              = true
            ∧ tick br checkUserStatus
                (.response status (.json (.obj [("loggedIn", .bool true)]))) s
              = { s with effects := s.effects ++ [.fetch
                    { method := "POST", url := "/api/webchat/status",
                      headers := [("Content-Type", "application/json")],
                      body := some [("username", s.username)] }] }) := by
  refine ⟨fun h => ⟨?_, ?_⟩, fun h hu => ⟨?_, ?_, ?_, ?_, ?_, ?_, ?_⟩⟩
  · apply tick_idle
    rcases h with h | h <;> simp [checkUserStatus, h]
  · rcases h with h | h <;> simp [checkUserStatus, h]
  · simp [checkUserStatus, h, hu, Page.fetch, statusRequest, jsonHeaders]
  · simp [checkUserStatus, h, hu, requests_fetch, statusRequest, jsonHeaders]
  · rw [statusTick_eq br _ s h hu]
    simp [checkUserStatusSettled, readProp_loggedIn, statusRequest, jsonHeaders]
  · rw [statusTick_eq br _ s h hu]
    simp [checkUserStatusSettled, readProp_loggedIn, handleLogout, Page.emit, statusRequest,
      jsonHeaders]
  · rw [statusTick_eq br _ s h hu]
    simp [checkUserStatusSettled, readProp_loggedIn, handleLogout, Page.emit, Page.alerts,
      List.filterMap_append]
  · rw [statusTick_eq br _ s h hu]
    simp [checkUserStatusSettled, readProp_loggedIn, handleLogout, Page.emit]
  · rw [statusTick_eq br _ s h hu]
    simp [checkUserStatusSettled, readProp_loggedIn, statusRequest, jsonHeaders]

theorem c8_status_tick_witness :
    ((aliceLoggedOut.isLoggedOut = true ∨ aliceLoggedOut.username = "")
        ∧ tick sampleBrowser checkUserStatus loggedInFalse aliceLoggedOut = aliceLoggedOut)
      ∧ aliceLoggedIn.isLoggedOut = false ∧ aliceLoggedIn.username ≠ ""
      ∧ (checkUserStatus aliceLoggedIn).requests
          = aliceLoggedIn.requests ++
              [{ method := "POST", url := "/api/webchat/status",
                 headers := [("Content-Type", "application/json")],
                 body := some [("username", "alice")] }]
      ∧ (tick sampleBrowser checkUserStatus
            (.response 200 (.json (.obj [("loggedIn", .bool false)]))) aliceLoggedIn).alerts
          = aliceLoggedIn.alerts ++ [logoutNotice] :=
  ⟨⟨Or.inl (by decide),
    ((c8_status_tick sampleBrowser aliceLoggedOut loggedInFalse 200).1
      (Or.inl (by decide))).1⟩,
   by decide, by decide,
   ((c8_status_tick sampleBrowser aliceLoggedIn loggedInFalse 200).2 (by decide)
      (by decide)).2.1,
   ((c8_status_tick sampleBrowser aliceLoggedIn loggedInFalse 200).2 (by decide)
      (by decide)).2.2.2.2.1⟩

/-! ## Leaving the page (C9) -/

/-- C9: on `beforeunload` a beacon is sent if and only if `username` is
non-empty and `isLoggedOut` is false.  When it is sent, it is exactly one beacon,
to `/api/webchat/logout`, carrying `{username: <current username>}`; otherwise
(in particular when `isLoggedOut` is already true) the page is left untouched. -/
theorem c9_unload_beacon (s : Page) :
    ((beforeUnload s).beacons ≠ s.beacons ↔ (s.username ≠ "" ∧ s.isLoggedOut = false))
      ∧ ((s.username ≠ "" ∧ s.isLoggedOut = false) →
          (beforeUnload s).effects
              = s.effects ++ [.sendBeacon "/api/webchat/logout" [("username", s.username)]]
            ∧ (beforeUnload s).beacons
              = s.beacons ++ [("/api/webchat/logout", [("username", s.username)])])
      ∧ (¬ (s.username ≠ "" ∧ s.isLoggedOut = false) → beforeUnload s = s)
      ∧ (s.isLoggedOut = true → beforeUnload s = s) := by
  by_cases hu : s.username = ""
  · simp [beforeUnload, hu]
  · cases hl : s.isLoggedOut <;>
      simp [beforeUnload, hu, hl, Page.emit, Page.beacons, List.filterMap_append]

theorem c9_unload_beacon_witness :
    (aliceLoggedIn.username ≠ "" ∧ aliceLoggedIn.isLoggedOut = false)
      ∧ (beforeUnload aliceLoggedIn).beacons
          = aliceLoggedIn.beacons ++ [("/api/webchat/logout", [("username", "alice")])]
      ∧ aliceLoggedOut.isLoggedOut = true
      ∧ beforeUnload aliceLoggedOut = aliceLoggedOut
      ∧ ¬ ((Page.initial blankDom).username ≠ "" ∧ (Page.initial blankDom).isLoggedOut = false)
      ∧ beforeUnload (Page.initial blankDom) = Page.initial blankDom :=
  ⟨by decide, ((c9_unload_beacon aliceLoggedIn).2.1 (by decide)).2, by decide,
   (c9_unload_beacon aliceLoggedOut).2.2.2 (by decide), by decide,
   (c9_unload_beacon (Page.initial blankDom)).2.2.1 (by decide)⟩

/-! ## Transport and parse failures (C10) -/

theorem fetchMessagesSettled_session (br : Browser) (status : Nat) (data : Json)
    (s : Page) (h401 : status ≠ 401) (h403 : status ≠ 403) :
    (fetchMessagesSettled br (.response status (.json data)) s).isLoggedOut = s.isLoggedOut
      ∧ (fetchMessagesSettled br (.response status (.json data)) s).username = s.username
      ∧ (fetchMessagesSettled br (.response status (.json data)) s).alerts = s.alerts
      ∧ (fetchMessagesSettled br (.response status (.json data)) s).reloads = s.reloads
      ∧ (data.truthy = false →
          fetchMessagesSettled br (.response status (.json data)) s = s) := by
  unfold fetchMessagesSettled
  simp only [h401, h403, or_self, if_false]
  by_cases ht : data.truthy = true
  · simp only [ht, if_true]
    cases data with
    | arr items =>
      simp only
      generalize renderLoop br items (br.setInnerHTML "") = r
      rcases r with ⟨html, ok⟩
      cases ok <;>
        simp [Page.emit, Page.alerts, Page.reloads, List.filterMap_append, List.count_append]
    | _ => simp [Page.emit, Page.alerts, Page.reloads, List.filterMap_append, List.count_append]
  · simp [ht]

/-- C10 as stated fails.  A status answer without a `loggedIn` field (here `{}`)
runs `handleLogout`; and a message answer that is JSON but not an array (here
`{error: "oops"}`, status 500) empties the transcript before the loop throws. -/
theorem c10_counterexample :
    aliceLoggedIn.isLoggedOut = false
      ∧ (tick sampleBrowser checkUserStatus (.response 200 (.json (.obj [])))
          aliceLoggedIn).isLoggedOut = true
      ∧ (tick sampleBrowser checkUserStatus (.response 200 (.json (.obj [])))
          aliceLoggedIn).alerts = [logoutNotice]
      ∧ (tick sampleBrowser checkUserStatus (.response 200 (.json (.obj [])))
          aliceLoggedIn).reloads = 1
      ∧ aliceReading.dom.chatMessagesInnerHTML = "<div>old</div>"
      ∧ (tick sampleBrowser fetchMessages
          (.response 500 (.json (.obj [("error", .str "oops")])))
          aliceReading).dom.chatMessagesInnerHTML = "" := by
  decide

/-- C10, amended.  A `fetchMessages` or `checkUserStatus` tick whose request
ends in a network error or whose body is not parseable as JSON (and, for
`fetchMessages`, whose status is not 401/403) only logs to the console: no
`handleLogout`, and `isLoggedOut`, `username` and the DOM are as before; the
same holds for a status answer of JSON `null`.  A `fetchMessages` tick whose body
is JSON of any shape (status not 401/403) never runs `handleLogout` and leaves
`isLoggedOut` and `username` alone, and leaves the whole page alone when the
value is falsy.  A `checkUserStatus` tick whose body is any other JSON value
without a truthy `loggedIn` field does run `handleLogout`. -/
theorem c10_failures_skip_tick (br : Browser) (s : Page) (o : Outcome) (status : Nat)
    (data : Json) (h : s.isLoggedOut = false) :
    ((o.failed = true → o.authLoss = false →
        tick br fetchMessages o s
          = { s with effects := s.effects
                ++ [.fetch messagesRequest, .consoleError "Error fetching messages:"] })
      ∧ (status ≠ 401 → status ≠ 403 →
          (tick br fetchMessages (.response status (.json data)) s).isLoggedOut = false
            ∧ (tick br fetchMessages (.response status (.json data)) s).username = s.username
            ∧ (tick br fetchMessages (.response status (.json data)) s).alerts = s.alerts
            ∧ (tick br fetchMessages (.response status (.json data)) s).reloads = s.reloads
            ∧ (data.truthy = false →
                tick br fetchMessages (.response status (.json data)) s
                  = { s with effects := s.effects ++ [.fetch messagesRequest] }))
      ∧ (s.username ≠ "" → (o.failed = true ∨ o = .response status (.json .null)) →
          tick br checkUserStatus o s
            = { s with effects := s.effects
                  ++ [.fetch (statusRequest s.username),
                      .consoleError "Error checking user status:"] })
      ∧ (s.username ≠ "" → data.readProp "loggedIn" = .value false →
          tick br checkUserStatus (.response status (.json data)) s
            = handleLogout
                { s with effects := s.effects ++ [.fetch (statusRequest s.username)] })) := by
  refine ⟨fun hf ha => ?_, fun h401 h403 => ?_, fun hu ho => ?_, fun hu hd => ?_⟩
  · rw [fetchTick_eq br _ s h]
    cases o with
    | networkError => simp [fetchMessagesSettled, Page.emit]
    | response st body =>
      cases body with
      | unparseable =>
        have hst : ¬ (st = 401 ∨ st = 403) := by
          simpa [Outcome.authLoss] using ha
        simp [fetchMessagesSettled, hst, Page.emit]
      | json d => simp [Outcome.failed] at hf
  · rw [fetchTick_eq br _ s h]
    obtain ⟨h1, h2, h3, h4, h5⟩ := fetchMessagesSettled_session br status data
      { s with effects := s.effects ++ [.fetch messagesRequest] } h401 h403
    refine ⟨by rw [h1]; exact h, by rw [h2], ?_, ?_, h5⟩
    · rw [h3]; simp [Page.alerts, List.filterMap_append]
    · rw [h4]; simp [Page.reloads, List.count_append]
  · rw [statusTick_eq br _ s h hu]
    rcases ho with hf | rfl
    · cases o with
      | networkError => simp [checkUserStatusSettled, Page.emit]
      | response st body =>
        cases body with
        | unparseable => simp [checkUserStatusSettled, Page.emit]
        | json d => simp [Outcome.failed] at hf
    · simp [checkUserStatusSettled, Json.readProp, Page.emit]
  · rw [statusTick_eq br _ s h hu]
    simp [checkUserStatusSettled, hd]

theorem c10_failures_skip_tick_witness :
    aliceReading.isLoggedOut = false
      ∧ ((Outcome.response 502 .unparseable).failed = true
        ∧ (Outcome.response 502 .unparseable).authLoss = false
        ∧ tick sampleBrowser fetchMessages (.response 502 .unparseable) aliceReading
            = { aliceReading with effects := aliceReading.effects
                  ++ [.fetch messagesRequest, .consoleError "Error fetching messages:"] })
      ∧ ((200 : Nat) ≠ 401 ∧ (200 : Nat) ≠ 403 ∧ (Json.str "").truthy = false
        ∧ tick sampleBrowser fetchMessages (.response 200 (.json (.str ""))) aliceReading
            = { aliceReading with effects := aliceReading.effects ++ [.fetch messagesRequest] })
      ∧ (aliceReading.username ≠ ""
        ∧ tick sampleBrowser checkUserStatus (.response 502 .unparseable) aliceReading
            = { aliceReading with effects := aliceReading.effects
                  ++ [.fetch (statusRequest aliceReading.username),
                      .consoleError "Error checking user status:"] })
      ∧ ((Json.str "").readProp "loggedIn" = .value false
        ∧ tick sampleBrowser checkUserStatus (.response 200 (.json (.str ""))) aliceReading
            = handleLogout
                { aliceReading with
                  effects := aliceReading.effects
                    ++ [.fetch (statusRequest aliceReading.username)] }) :=
  ⟨by decide,
   ⟨by decide, by decide,
    (c10_failures_skip_tick sampleBrowser aliceReading (.response 502 .unparseable) 200
      (.str "") (by decide)).1 (by decide) (by decide)⟩,
   ⟨by decide, by decide, by decide,
    ((c10_failures_skip_tick sampleBrowser aliceReading (.response 502 .unparseable) 200
      (.str "") (by decide)).2.1 (by decide) (by decide)).2.2.2.2 (by decide)⟩,
   ⟨by decide,
    (c10_failures_skip_tick sampleBrowser aliceReading (.response 502 .unparseable) 200
      (.str "") (by decide)).2.2.1 (by decide) (Or.inl (by decide))⟩,
   ⟨by decide,
    (c10_failures_skip_tick sampleBrowser aliceReading (.response 502 .unparseable) 200
      (.str "") (by decide)).2.2.2 (by decide) (by decide)⟩⟩

end WebChat
